import Mathlib

/-!
Shallow embedding of `src/uuv_mission/dynamic.py`: a depth-controlled
underwater-vehicle simulator consisting of a plant (`Submarine`), a PD
feedback law (`Control`), a mission data record (`Mission`), and the
closed-loop simulation (`ClosedLoop.simulate`).  Python scalars are
modelled as exact rationals; the mutable objects of the Python code are
modelled by explicit state passing: each mutating method takes the
object's state and returns the updated state.
-/

/-- State of `Submarine`: the constants set in `__init__` (mass, drag,
actuator_gain, dt) together with the mutable position and velocity. -/
structure Submarine where
  mass : ℚ
  drag : ℚ
  actuator_gain : ℚ
  dt : ℚ
  pos_x : ℚ
  pos_y : ℚ
  vel_x : ℚ
  vel_y : ℚ
deriving DecidableEq, Repr

/-- `Submarine.__init__`: mass 1, drag 0.1, actuator gain 1, dt 1,
position (0,0), vel_x 1, vel_y 0. -/
def Submarine.init : Submarine :=
  { mass := 1, drag := 1/10, actuator_gain := 1, dt := 1,
    pos_x := 0, pos_y := 0, vel_x := 1, vel_y := 0 }

/-- `Submarine.transition(action, disturbance)`: position advances with the
pre-transition velocities, then the depth velocity is updated from the net
depth force. -/
def Submarine.transition (s : Submarine) (action disturbance : ℚ) : Submarine :=
  let pos_x := s.pos_x + s.vel_x * s.dt
  let pos_y := s.pos_y + s.vel_y * s.dt
  let force_y := -s.drag * s.vel_y + s.actuator_gain * (action + disturbance)
  let acc_y := force_y / s.mass
  { s with pos_x := pos_x, pos_y := pos_y, vel_y := s.vel_y + acc_y * s.dt }

/-- `Submarine.get_depth()`: the y position. -/
def Submarine.get_depth (s : Submarine) : ℚ := s.pos_y

/-- `Submarine.get_position()`: the (x, y) position pair. -/
def Submarine.get_position (s : Submarine) : ℚ × ℚ := (s.pos_x, s.pos_y)

/-- `Submarine.reset_state()`: position (0,0), vel_x 1, vel_y 0; the
constants are untouched. -/
def Submarine.reset_state (s : Submarine) : Submarine :=
  { s with pos_x := 0, pos_y := 0, vel_x := 1, vel_y := 0 }

/-- The `Mission` dataclass: three sequences, no validation on construction. -/
structure Mission where
  reference : List ℚ
  cave_height : List ℚ
  cave_depth : List ℚ
deriving DecidableEq, Repr

/-- `Trajectory`: the recorded sequence of (x, y) positions of one run. -/
structure Trajectory where
  position : List (ℚ × ℚ)
deriving DecidableEq, Repr

/-- State of `Control`: gains Kp, Kd and the mutable previous error. -/
structure Control where
  Kp : ℚ
  Kd : ℚ
  previous_error : ℚ
deriving DecidableEq, Repr

/-- `Control.__init__`: Kp 0.15, Kd 0.6, previous_error 0.0. -/
def Control.init : Control := { Kp := 15/100, Kd := 6/10, previous_error := 0 }

/-- `Control.controller(t, mission, observation_t)`: computes the PD action
and returns it together with the updated controller state
(`previous_error` becomes the current error). -/
def Control.controller (c : Control) (t : ℕ) (mission : Mission)
    (observation_t : ℚ) : ℚ × Control :=
  let current_error := mission.reference.getD t 0 - observation_t
  let u_t := c.Kp * current_error + c.Kd * (current_error - c.previous_error)
  (u_t, { c with previous_error := current_error })

/-- The error raised by `simulate` when the disturbance sequence is shorter
than the mission duration (`ValueError` in the source; the spec names it
`InsufficientDisturbanceLength`). -/
inductive SimError where
  | InsufficientDisturbanceLength
deriving DecidableEq, Repr

deriving instance DecidableEq for Except

/-- State of `ClosedLoop`: the plant and the controller it owns. -/
structure ClosedLoop where
  plant : Submarine
  controller : Control
deriving DecidableEq, Repr

/-- One iteration of the `for t in range(T)` body acting on the
(plant, controller) pair: compute the action from the observed depth, then
apply `transition` with that action and `disturbances[t]`. -/
def loopStep (mission : Mission) (disturbances : List ℚ) (t : ℕ)
    (st : Submarine × Control) : Submarine × Control :=
  let u := st.2.controller t mission st.1.get_depth
  (st.1.transition u.1 (disturbances.getD t 0), u.2)

/-- The simulation loop: starting at time index `t`, run `n` iterations from
state `st`, returning the recorded positions (taken at the top of each
iteration, before that iteration's actuation) and the final state. -/
def runLoop (mission : Mission) (disturbances : List ℚ) :
    ℕ → ℕ → Submarine × Control → List (ℚ × ℚ) × (Submarine × Control)
  | _, 0, st => ([], st)
  | t, n+1, st =>
    let r := runLoop mission disturbances (t+1) n (loopStep mission disturbances t st)
    (st.1.get_position :: r.1, r.2)

/-- The (plant, controller) state after `k` iterations of the loop body,
starting from state `st` at time index `t0`. -/
def stateAt (mission : Mission) (disturbances : List ℚ) (t0 : ℕ)
    (st : Submarine × Control) : ℕ → Submarine × Control
  | 0 => st
  | k+1 => loopStep mission disturbances (t0 + k) (stateAt mission disturbances t0 st k)

/-- `ClosedLoop.simulate(mission, disturbances)`: checks the disturbance
length first (raising before any mutation), then resets the plant (but not
the controller), runs the loop for `T = len(mission.reference)` steps and
returns the trajectory.  The second component is the `ClosedLoop` state
after the call (the Python object is mutated in place). -/
def ClosedLoop.simulate (cl : ClosedLoop) (mission : Mission)
    (disturbances : List ℚ) : Except SimError Trajectory × ClosedLoop :=
  let T := mission.reference.length
  if disturbances.length < T then
    (Except.error SimError.InsufficientDisturbanceLength, cl)
  else
    let r := runLoop mission disturbances 0 T (cl.plant.reset_state, cl.controller)
    (Except.ok ⟨r.1⟩, ⟨r.2.1, r.2.2⟩)

/-- Claim C1: if the disturbance sequence is shorter than the mission
reference, `simulate` fails with `InsufficientDisturbanceLength` before
executing any loop step: no trajectory is returned and the `ClosedLoop`
state is untouched (nothing is truncated or padded). -/
theorem C1_insufficient_disturbances (cl : ClosedLoop) (m : Mission)
    (d : List ℚ) (h : d.length < m.reference.length) :
    (cl.simulate m d).1 = Except.error SimError.InsufficientDisturbanceLength ∧
    (cl.simulate m d).2 = cl := by
  simp [ClosedLoop.simulate, h]

/-- Witness for C1 at `reference = [0]`, `disturbances = []`. -/
theorem C1_insufficient_disturbances_witness :
    ((ClosedLoop.mk Submarine.init Control.init).simulate
        (Mission.mk [0] [0] [0]) []).1 =
      Except.error SimError.InsufficientDisturbanceLength ∧
    ((ClosedLoop.mk Submarine.init Control.init).simulate
        (Mission.mk [0] [0] [0]) []).2 =
      ClosedLoop.mk Submarine.init Control.init :=
  C1_insufficient_disturbances (ClosedLoop.mk Submarine.init Control.init)
    (Mission.mk [0] [0] [0]) [] (by decide)

/-- Claim C3: `transition` advances the positions with the pre-transition
velocities and only afterwards updates the depth velocity from the net
depth force `(-drag * vel_y + actuator_gain * (action + disturbance))`
divided by the mass; the new depth position thus reflects the
pre-transition depth velocity. -/
theorem C3_transition_euler_order (s : Submarine) (action disturbance : ℚ) :
    (s.transition action disturbance).pos_x = s.pos_x + s.vel_x * s.dt ∧
    (s.transition action disturbance).pos_y = s.pos_y + s.vel_y * s.dt ∧
    (s.transition action disturbance).vel_y =
      s.vel_y +
        (-s.drag * s.vel_y + s.actuator_gain * (action + disturbance))
          / s.mass * s.dt :=
  ⟨rfl, rfl, rfl⟩

/-- The loop body leaves the along-track velocity and the plant constants
unchanged. -/
theorem loopStep_frame (mission : Mission) (disturbances : List ℚ) (t : ℕ)
    (st : Submarine × Control) :
    (loopStep mission disturbances t st).1.vel_x = st.1.vel_x ∧
    (loopStep mission disturbances t st).1.mass = st.1.mass ∧
    (loopStep mission disturbances t st).1.drag = st.1.drag ∧
    (loopStep mission disturbances t st).1.actuator_gain = st.1.actuator_gain ∧
    (loopStep mission disturbances t st).1.dt = st.1.dt :=
  ⟨rfl, rfl, rfl, rfl, rfl⟩

/-- The loop records exactly one position per iteration. -/
theorem runLoop_length (mission : Mission) (disturbances : List ℚ) :
    ∀ (n t : ℕ) (st : Submarine × Control),
      (runLoop mission disturbances t n st).1.length = n := by
  intro n
  induction n with
  | zero => intro t st; rfl
  | succ n ih =>
    intro t st
    simp [runLoop, ih]

/-- Shifting the start of `stateAt` by one loop iteration. -/
theorem stateAt_shift (mission : Mission) (disturbances : List ℚ) :
    ∀ (k t : ℕ) (st : Submarine × Control),
      stateAt mission disturbances (t+1) (loopStep mission disturbances t st) k =
        stateAt mission disturbances t st (k+1) := by
  intro k
  induction k with
  | zero => intro t st; rfl
  | succ k ih =>
    intro t st
    show loopStep mission disturbances ((t+1)+k) _ = loopStep mission disturbances (t+(k+1)) _
    rw [ih, Nat.add_assoc, Nat.add_comm 1 k]

/-- The `k`-th recorded position of the loop is the position of the state
reached after `k` iterations (taken before iteration `k`'s actuation). -/
theorem runLoop_getD (mission : Mission) (disturbances : List ℚ) :
    ∀ (n t k : ℕ) (st : Submarine × Control), k < n →
      (runLoop mission disturbances t n st).1.getD k (0, 0) =
        (stateAt mission disturbances t st k).1.get_position := by
  intro n
  induction n with
  | zero => intro t k st h; exact absurd h (Nat.not_lt_zero k)
  | succ n ih =>
    intro t k st h
    cases k with
    | zero => rfl
    | succ k =>
      show (runLoop mission disturbances (t+1) n
          (loopStep mission disturbances t st)).1.getD k (0, 0) = _
      rw [ih (t+1) k _ (Nat.lt_of_succ_lt_succ h), stateAt_shift]

/-- The final state of the loop is the state after all `n` iterations. -/
theorem runLoop_snd (mission : Mission) (disturbances : List ℚ) :
    ∀ (n t : ℕ) (st : Submarine × Control),
      (runLoop mission disturbances t n st).2 =
        stateAt mission disturbances t st n := by
  intro n
  induction n with
  | zero => intro t st; rfl
  | succ n ih =>
    intro t st
    show (runLoop mission disturbances (t+1) n
        (loopStep mission disturbances t st)).2 = _
    rw [ih (t+1), stateAt_shift]

/-- Every state of the run keeps the along-track velocity of the start
state. -/
theorem stateAt_vel_x (mission : Mission) (disturbances : List ℚ)
    (t0 : ℕ) (st : Submarine × Control) :
    ∀ k : ℕ, (stateAt mission disturbances t0 st k).1.vel_x = st.1.vel_x := by
  intro k
  induction k with
  | zero => rfl
  | succ k ih => exact ih

/-- The loop body at time `t` depends on the disturbance sequence only
through its entry at index `t`. -/
theorem loopStep_congr_disturbance (mission : Mission) (d d' : List ℚ)
    (t : ℕ) (st : Submarine × Control) (h : d.getD t 0 = d'.getD t 0) :
    loopStep mission d t st = loopStep mission d' t st := by
  unfold loopStep
  rw [h]

/-- The loop over time indices `t .. t+n-1` depends on the disturbance
sequence only through its entries at those indices. -/
theorem runLoop_congr_disturbances (mission : Mission) (d d' : List ℚ) :
    ∀ (n t : ℕ) (st : Submarine × Control),
      (∀ j, t ≤ j → j < t + n → d.getD j 0 = d'.getD j 0) →
      runLoop mission d t n st = runLoop mission d' t n st := by
  intro n
  induction n with
  | zero => intro t st _; rfl
  | succ n ih =>
    intro t st h
    have h0 : d.getD t 0 = d'.getD t 0 :=
      h t (Nat.le_refl t) (by omega)
    have hstep : loopStep mission d t st = loopStep mission d' t st :=
      loopStep_congr_disturbance mission d d' t st h0
    have hrec : runLoop mission d (t+1) n (loopStep mission d' t st) =
        runLoop mission d' (t+1) n (loopStep mission d' t st) :=
      ih (t+1) _ (fun j hj1 hj2 => h j (by omega) (by omega))
    show (st.1.get_position ::
          (runLoop mission d (t+1) n (loopStep mission d t st)).1,
          (runLoop mission d (t+1) n (loopStep mission d t st)).2) =
        (st.1.get_position ::
          (runLoop mission d' (t+1) n (loopStep mission d' t st)).1,
          (runLoop mission d' (t+1) n (loopStep mission d' t st)).2)
    rw [hstep, hrec]

/-- The loop body reads the mission only through its reference sequence. -/
theorem loopStep_congr_reference (m m' : Mission) (d : List ℚ) (t : ℕ)
    (st : Submarine × Control) (h : m.reference = m'.reference) :
    loopStep m d t st = loopStep m' d t st := by
  simp [loopStep, Control.controller, h]

/-- The loop reads the mission only through its reference sequence. -/
theorem runLoop_congr_reference (m m' : Mission) (d : List ℚ)
    (h : m.reference = m'.reference) :
    ∀ (n t : ℕ) (st : Submarine × Control),
      runLoop m d t n st = runLoop m' d t n st := by
  intro n
  induction n with
  | zero => intro t st; rfl
  | succ n ih =>
    intro t st
    have hstep : loopStep m d t st = loopStep m' d t st :=
      loopStep_congr_reference m m' d t st h
    have hrec : runLoop m d (t+1) n (loopStep m' d t st) =
        runLoop m' d (t+1) n (loopStep m' d t st) := ih (t+1) _
    show (st.1.get_position :: (runLoop m d (t+1) n (loopStep m d t st)).1,
          (runLoop m d (t+1) n (loopStep m d t st)).2) =
        (st.1.get_position :: (runLoop m' d (t+1) n (loopStep m' d t st)).1,
          (runLoop m' d (t+1) n (loopStep m' d t st)).2)
    rw [hstep, hrec]

/-- Counterexample to claim C2: the length check precedes the call to
`reset_state`, so when `simulate` fails the plant keeps the state it had at
the call — here `pos_x = 5` — which is not the state `reset_state`
establishes (position (0,0), vel_x 1, vel_y 0). -/
theorem C2_counterexample :
    ((ClosedLoop.mk { Submarine.init with pos_x := 5 } Control.init).simulate
        (Mission.mk [0] [0] [0]) []).1 =
      Except.error SimError.InsufficientDisturbanceLength ∧
    ((ClosedLoop.mk { Submarine.init with pos_x := 5 } Control.init).simulate
        (Mission.mk [0] [0] [0]) []).2.plant ≠
      ({ Submarine.init with pos_x := 5 } : Submarine).reset_state := by
  refine ⟨rfl, fun hc => ?_⟩
  have h5 : (5 : ℚ) = 0 := congrArg Submarine.pos_x hc
  norm_num at h5

/-- Claim C2 (amended): when the disturbance sequence is shorter than the
mission reference, `simulate` fails with `InsufficientDisturbanceLength`
and leaves the whole `ClosedLoop` state — plant included — exactly as it
was at the moment of the call: the check precedes `reset_state` and every
other mutation, so the plant is not reset on failure. -/
theorem C2_failure_leaves_state_unchanged (cl : ClosedLoop) (m : Mission)
    (d : List ℚ) (h : d.length < m.reference.length) :
    cl.simulate m d = (Except.error SimError.InsufficientDisturbanceLength, cl) := by
  simp [ClosedLoop.simulate, h]

/-- Witness for the amended C2 at a plant whose `pos_x` is 5. -/
theorem C2_failure_leaves_state_unchanged_witness :
    (ClosedLoop.mk { Submarine.init with pos_x := 5 } Control.init).simulate
        (Mission.mk [0] [0] [0]) [] =
      (Except.error SimError.InsufficientDisturbanceLength,
        ClosedLoop.mk { Submarine.init with pos_x := 5 } Control.init) :=
  C2_failure_leaves_state_unchanged
    (ClosedLoop.mk { Submarine.init with pos_x := 5 } Control.init)
    (Mission.mk [0] [0] [0]) [] (by decide)

/-- Claim C4: `transition` leaves `vel_x`, `mass`, `drag`, `actuator_gain`
and `dt` unchanged; `vel_x` is 1 at construction and after `reset_state`,
so every state reached during a simulation run (which starts from the
reset plant) has `vel_x = 1`. -/
theorem C4_along_track_velocity_invariant :
    (∀ (s : Submarine) (a d : ℚ),
      (s.transition a d).vel_x = s.vel_x ∧
      (s.transition a d).mass = s.mass ∧
      (s.transition a d).drag = s.drag ∧
      (s.transition a d).actuator_gain = s.actuator_gain ∧
      (s.transition a d).dt = s.dt) ∧
    Submarine.init.vel_x = 1 ∧
    (∀ s : Submarine, s.reset_state.vel_x = 1) ∧
    (∀ (cl : ClosedLoop) (m : Mission) (dist : List ℚ) (k : ℕ),
      (stateAt m dist 0 (cl.plant.reset_state, cl.controller) k).1.vel_x = 1) := by
  refine ⟨fun s a d => ⟨rfl, rfl, rfl, rfl, rfl⟩, rfl, fun s => rfl,
    fun cl m dist k => ?_⟩
  rw [stateAt_vel_x]
  rfl

/-- Claim C5: the controller returns
`Kp * error + Kd * (error - previous_error)` with
`error = reference[t] - observed_depth`, stores `error` as the new
`previous_error` (gains unchanged), starts with `previous_error = 0`, and
hence its first action's derivative term is `Kd * error` itself. -/
theorem C5_pd_control_law (c : Control) (t : ℕ) (m : Mission) (obs : ℚ)
    (h : t < m.reference.length) :
    (c.controller t m obs).1 =
      c.Kp * (m.reference.getD t 0 - obs) +
        c.Kd * ((m.reference.getD t 0 - obs) - c.previous_error) ∧
    (c.controller t m obs).2.previous_error = m.reference.getD t 0 - obs ∧
    (c.controller t m obs).2.Kp = c.Kp ∧
    (c.controller t m obs).2.Kd = c.Kd ∧
    Control.init.previous_error = 0 ∧
    (Control.init.controller t m obs).1 =
      Control.init.Kp * (m.reference.getD t 0 - obs) +
        Control.init.Kd * (m.reference.getD t 0 - obs) := by
  refine ⟨rfl, rfl, rfl, rfl, rfl, ?_⟩
  show Control.init.Kp * (m.reference.getD t 0 - obs) +
      Control.init.Kd * ((m.reference.getD t 0 - obs) - Control.init.previous_error) = _
  rw [show Control.init.previous_error = 0 from rfl, sub_zero]

/-- Witness for C5 at `t = 0`, `reference = [1]`, observed depth 0. -/
theorem C5_pd_control_law_witness :
    (Control.init.controller 0 (Mission.mk [1] [1] [1]) 0).1 =
      Control.init.Kp * ((Mission.mk [1] [1] [1]).reference.getD 0 0 - 0) +
        Control.init.Kd *
          (((Mission.mk [1] [1] [1]).reference.getD 0 0 - 0) -
            Control.init.previous_error) ∧
    (Control.init.controller 0 (Mission.mk [1] [1] [1]) 0).2.previous_error =
      (Mission.mk [1] [1] [1]).reference.getD 0 0 - 0 ∧
    (Control.init.controller 0 (Mission.mk [1] [1] [1]) 0).2.Kp = Control.init.Kp ∧
    (Control.init.controller 0 (Mission.mk [1] [1] [1]) 0).2.Kd = Control.init.Kd ∧
    Control.init.previous_error = 0 ∧
    (Control.init.controller 0 (Mission.mk [1] [1] [1]) 0).1 =
      Control.init.Kp * ((Mission.mk [1] [1] [1]).reference.getD 0 0 - 0) +
        Control.init.Kd * ((Mission.mk [1] [1] [1]).reference.getD 0 0 - 0) :=
  C5_pd_control_law Control.init 0 (Mission.mk [1] [1] [1]) 0 (by decide)

/-- Claim C6: for a mission of length `T ≥ 1` and disturbances of length
`≥ T`, `simulate` returns a trajectory of exactly length `T` whose entry at
index `t` is the plant position after `t` loop iterations — i.e. the
position recorded before step `t`'s actuation, the one the controller
observed when producing step `t`'s action. -/
theorem C6_trajectory_shape (cl : ClosedLoop) (m : Mission) (d : List ℚ)
    (h1 : 1 ≤ m.reference.length) (h2 : m.reference.length ≤ d.length) :
    ∃ tr : Trajectory, (cl.simulate m d).1 = Except.ok tr ∧
      tr.position.length = m.reference.length ∧
      ∀ t, t < m.reference.length →
        tr.position.getD t (0, 0) =
          (stateAt m d 0 (cl.plant.reset_state, cl.controller) t).1.get_position := by
  have hlt : ¬ (d.length < m.reference.length) := Nat.not_lt.mpr h2
  refine ⟨⟨(runLoop m d 0 m.reference.length
      (cl.plant.reset_state, cl.controller)).1⟩, ?_, ?_, ?_⟩
  · simp [ClosedLoop.simulate, hlt]
  · exact runLoop_length m d m.reference.length 0 _
  · intro t ht
    exact runLoop_getD m d m.reference.length 0 t _ ht

/-- Witness for C6 at `reference = [0]`, `disturbances = [0]`. -/
theorem C6_trajectory_shape_witness :
    ∃ tr : Trajectory,
      ((ClosedLoop.mk Submarine.init Control.init).simulate
          (Mission.mk [0] [0] [0]) [0]).1 = Except.ok tr ∧
      tr.position.length = (Mission.mk [0] [0] [0]).reference.length ∧
      ∀ t, t < (Mission.mk [0] [0] [0]).reference.length →
        tr.position.getD t (0, 0) =
          (stateAt (Mission.mk [0] [0] [0]) [0] 0
            ((ClosedLoop.mk Submarine.init Control.init).plant.reset_state,
              (ClosedLoop.mk Submarine.init Control.init).controller) t).1.get_position :=
  C6_trajectory_shape (ClosedLoop.mk Submarine.init Control.init)
    (Mission.mk [0] [0] [0]) [0] (by decide) (by decide)

/-- Counterexample to claim C7: `simulate` resets the plant but not the
controller's `previous_error`, so a second call on the mutated `ClosedLoop`
with the identical mission `reference = [1,0,0]` and identical disturbances
`[0,0,0]` yields a different trajectory (index 2 is `(2, 3/4)` in the first
run and `(2, 907/1000)` in the second). -/
theorem C7_counterexample :
    ((ClosedLoop.mk Submarine.init Control.init).simulate
        (Mission.mk [1,0,0] [0,0,0] [0,0,0]) [0,0,0]).1 ≠
    (((ClosedLoop.mk Submarine.init Control.init).simulate
        (Mission.mk [1,0,0] [0,0,0] [0,0,0]) [0,0,0]).2.simulate
      (Mission.mk [1,0,0] [0,0,0] [0,0,0]) [0,0,0]).1 := by
  norm_num [ClosedLoop.simulate, runLoop, loopStep, Submarine.transition,
    Control.controller, Submarine.get_position, Submarine.get_depth,
    Submarine.reset_state, Submarine.init, Control.init]

/-- Claim C7 (amended): each call to `simulate` resets the plant, so the
returned trajectory is independent of the plant's mutable state at the
call (a fresh run inherits no plant position or velocity); but the
controller's `previous_error` is not reset, so two successive calls on the
same instance can differ.  Two calls with identical mission, disturbances,
controller state and plant constants yield identical results. -/
theorem C7_plant_reset_independence (p p' : Submarine) (c : Control)
    (m : Mission) (d : List ℚ)
    (hm : p.mass = p'.mass) (hd : p.drag = p'.drag)
    (hg : p.actuator_gain = p'.actuator_gain) (ht : p.dt = p'.dt) :
    ((ClosedLoop.mk p c).simulate m d).1 = ((ClosedLoop.mk p' c).simulate m d).1 := by
  have hreset : p.reset_state = p'.reset_state := by
    show Submarine.mk p.mass p.drag p.actuator_gain p.dt 0 0 1 0 =
        Submarine.mk p'.mass p'.drag p'.actuator_gain p'.dt 0 0 1 0
    rw [hm, hd, hg, ht]
  by_cases hlen : d.length < m.reference.length
  · simp [ClosedLoop.simulate, hlen]
  · simp [ClosedLoop.simulate, hlen, hreset]

/-- Witness for the amended C7: a plant displaced to `pos_x = 7` gives the
same trajectory as the freshly constructed plant. -/
theorem C7_plant_reset_independence_witness :
    ((ClosedLoop.mk { Submarine.init with pos_x := 7 } Control.init).simulate
        (Mission.mk [1] [1] [1]) [0]).1 =
      ((ClosedLoop.mk Submarine.init Control.init).simulate
        (Mission.mk [1] [1] [1]) [0]).1 :=
  C7_plant_reset_independence { Submarine.init with pos_x := 7 } Submarine.init
    Control.init (Mission.mk [1] [1] [1]) [0] rfl rfl rfl rfl

/-- Counterexample to claim C8: `Mission` construction performs no shape
validation — a mission whose limit sequences are empty while the reference
has length 1 is constructed successfully and even simulates without any
error, so the core neither fails with `MissionShapeMismatch` nor
guarantees equal lengths for constructed missions. -/
theorem C8_counterexample :
    ((ClosedLoop.mk Submarine.init Control.init).simulate
        (Mission.mk [0] [] []) [0]).1 =
      Except.ok (Trajectory.mk [(0, 0)]) ∧
    (Mission.mk [0] [] []).cave_height.length ≠
      (Mission.mk [0] [] []).reference.length := by
  refine ⟨?_, by decide⟩
  norm_num [ClosedLoop.simulate, runLoop, loopStep, Submarine.transition,
    Control.controller, Submarine.get_position, Submarine.get_depth,
    Submarine.reset_state, Submarine.init, Control.init]

/-- Claim C8 (amended): the core performs no length validation: any triple
of sequences yields a `Mission`, and the simulation reads the mission only
through its reference sequence, so two missions with equal references
behave identically whatever their limit sequences — equal lengths are an
obligation on the external producers, not enforced by the core. -/
theorem C8_core_reads_only_reference (cl : ClosedLoop) (m m' : Mission)
    (d : List ℚ) (h : m.reference = m'.reference) :
    cl.simulate m d = cl.simulate m' d := by
  have hT : m.reference.length = m'.reference.length := by rw [h]
  simp only [ClosedLoop.simulate, hT, runLoop_congr_reference m m' d h]

/-- Witness for the amended C8: missions `([0],[1],[2])` and `([0],[],[])`
simulate identically. -/
theorem C8_core_reads_only_reference_witness :
    (ClosedLoop.mk Submarine.init Control.init).simulate
        (Mission.mk [0] [1] [2]) [0] =
      (ClosedLoop.mk Submarine.init Control.init).simulate
        (Mission.mk [0] [] []) [0] :=
  C8_core_reads_only_reference (ClosedLoop.mk Submarine.init Control.init)
    (Mission.mk [0] [1] [2]) (Mission.mk [0] [] []) [0] rfl

/-- Claim C9: with the constructed plant (mass 1, drag 0.1, gain 1, dt 1)
and controller (Kp 0.15, Kd 0.6), reference `[0,0,0]` and disturbances
`[0,0,0]` give first action 0, trajectory `[(0,0),(1,0),(2,0)]`, and depth
velocity 0 at every step of the run. -/
theorem C9_zero_reference_scenario :
    (Control.init.controller 0 (Mission.mk [0,0,0] [0,0,0] [0,0,0]) 0).1 = 0 ∧
    ((ClosedLoop.mk Submarine.init Control.init).simulate
        (Mission.mk [0,0,0] [0,0,0] [0,0,0]) [0,0,0]).1 =
      Except.ok (Trajectory.mk [(0,0), (1,0), (2,0)]) ∧
    (stateAt (Mission.mk [0,0,0] [0,0,0] [0,0,0]) [0,0,0] 0
        (Submarine.init.reset_state, Control.init) 0).1.vel_y = 0 ∧
    (stateAt (Mission.mk [0,0,0] [0,0,0] [0,0,0]) [0,0,0] 0
        (Submarine.init.reset_state, Control.init) 1).1.vel_y = 0 ∧
    (stateAt (Mission.mk [0,0,0] [0,0,0] [0,0,0]) [0,0,0] 0
        (Submarine.init.reset_state, Control.init) 2).1.vel_y = 0 ∧
    (stateAt (Mission.mk [0,0,0] [0,0,0] [0,0,0]) [0,0,0] 0
        (Submarine.init.reset_state, Control.init) 3).1.vel_y = 0 := by
  norm_num [stateAt, ClosedLoop.simulate, runLoop, loopStep, Submarine.transition,
    Control.controller, Submarine.get_position, Submarine.get_depth,
    Submarine.reset_state, Submarine.init, Control.init]

/-- Claim C10: with `T` the reference length, two disturbance sequences of
length `≥ T` that agree on indices `0 .. T-1` drive `simulate` (from the
same `ClosedLoop` state) to the same result: entries at index `T` or
beyond are never read. -/
theorem C10_unused_disturbance_entries (cl : ClosedLoop) (m : Mission)
    (d d' : List ℚ) (h1 : m.reference.length ≤ d.length)
    (h2 : m.reference.length ≤ d'.length)
    (h3 : ∀ t, t < m.reference.length → d.getD t 0 = d'.getD t 0) :
    cl.simulate m d = cl.simulate m d' := by
  have hl : ¬ (d.length < m.reference.length) := Nat.not_lt.mpr h1
  have hl' : ¬ (d'.length < m.reference.length) := Nat.not_lt.mpr h2
  have hcongr : runLoop m d 0 m.reference.length
      (cl.plant.reset_state, cl.controller) =
      runLoop m d' 0 m.reference.length
      (cl.plant.reset_state, cl.controller) :=
    runLoop_congr_disturbances m d d' m.reference.length 0 _
      (fun j _ hj2 => h3 j (by omega))
  simp only [ClosedLoop.simulate, if_neg hl, if_neg hl', hcongr]

/-- Witness for C10: reference length 2, disturbances `[0,0,5]` and
`[0,0]` agree below index 2 and give the same result. -/
theorem C10_unused_disturbance_entries_witness :
    (ClosedLoop.mk Submarine.init Control.init).simulate
        (Mission.mk [0, 0] [0, 0] [0, 0]) [0, 0, 5] =
      (ClosedLoop.mk Submarine.init Control.init).simulate
        (Mission.mk [0, 0] [0, 0] [0, 0]) [0, 0] :=
  C10_unused_disturbance_entries (ClosedLoop.mk Submarine.init Control.init)
    (Mission.mk [0, 0] [0, 0] [0, 0]) [0, 0, 5] [0, 0] (by decide) (by decide)
    (by
      intro t ht
      have h4 : t < 2 := ht
      interval_cases t <;> rfl)
